import Mathlib

/-!
Verification of the request-defense pipeline and cache-augmented generation
orchestrator of the customer-support-chatbot service.

The Python sources are shallowly embedded: pure helpers become Lean
functions; the Redis counter store, the Redis cache and the external
search / LLM collaborators become explicit state values and outcome
oracles threaded through the orchestration functions; every externally
visible side effect (search call, LLM call, cache read, cache write,
back-off sleep) is recorded in an explicit effect list so that the
invariants about "who calls what, and when" can be stated as theorems.
-/

namespace Chatbot

/-! ## Input limits (`app/core/input_limits.py`) -/

/-- `MAX_QUERY_CHARS = 1000`. -/
def MAX_QUERY_CHARS : Nat := 1000

/-- `MAX_QUERY_TOKENS_EST = 350`. -/
def MAX_QUERY_TOKENS_EST : Nat := 350

/-- `estimate_token_count`: `len(text) // 3 + 1` (Python floor division). -/
def estimate_token_count (text : String) : Nat :=
  text.length / 3 + 1

/-- The two rejection branches of `validate_query_size`
(the two `HTTPException 400` payloads). -/
inductive QueryTooLarge where
  | tooManyChars
  | tooManyTokensEst
  deriving DecidableEq, Repr

/-- `validate_query_size`: reject when the character count exceeds
`MAX_QUERY_CHARS`, then when the token estimate exceeds
`MAX_QUERY_TOKENS_EST`; otherwise accept. -/
def validate_query_size (query : String) : Except QueryTooLarge Unit :=
  if query.length > MAX_QUERY_CHARS then
    .error .tooManyChars
  else if estimate_token_count query > MAX_QUERY_TOKENS_EST then
    .error .tooManyTokensEst
  else
    .ok ()

/-! ## Budget limiter (`app/core/budget_limiter.py`)

The Redis day-bucketed counter for one `(scope, UTC-date)` key is a `Nat`;
`INCR` is `+ 1`.  `check_ip_daily_limit` / `check_global_daily_limit`
increment first and then compare the post-increment value with the limit,
raising HTTP 429 with a `Retry-After: 86400` header on excess. -/

/-- The HTTP 429 rejection of the budget limiter, carrying the
`Retry-After` hint in seconds. -/
structure QuotaExceeded where
  retryAfterSeconds : Nat
  deriving DecidableEq, Repr

/-- One admission check against a day-bucketed counter: atomically
increment, then fail iff the post-increment value exceeds the limit.
Returns the check outcome together with the new counter value.
(The `EXPIRE` issued on the counter's first increment only affects the
UTC-day rollover, which is outside one day's counter state.) -/
def dailyLimitCheck (limit : Nat) (counter : Nat) : Except QuotaExceeded Unit × Nat :=
  let current := counter + 1
  (if current > limit then .error ⟨86400⟩ else .ok (), current)

/-- `BudgetLimiter.check_ip_daily_limit` on one origin's daily counter
(default `ip_daily_limit = 200`). -/
def check_ip_daily_limit (counter : Nat) : Except QuotaExceeded Unit × Nat :=
  dailyLimitCheck 200 counter

/-- `BudgetLimiter.check_global_daily_limit` on the global daily counter
(default `global_daily_limit = 5000`). -/
def check_global_daily_limit (counter : Nat) : Except QuotaExceeded Unit × Nat :=
  dailyLimitCheck 5000 counter

/-- Counter value after `k` admission checks starting from a fresh
(zero) daily counter. -/
def counterAfter (limit : Nat) : Nat → Nat
  | 0 => 0
  | k + 1 => (dailyLimitCheck limit (counterAfter limit k)).2

/-- Outcome of the `k`-th admission check (`k ≥ 1`) from one origin within
one UTC day, starting from a fresh counter. -/
def kthCheckResult (limit k : Nat) : Except QuotaExceeded Unit :=
  (dailyLimitCheck limit (counterAfter limit (k - 1))).1

theorem counterAfter_eq (limit : Nat) : ∀ k, counterAfter limit k = k := by
  intro k
  induction k with
  | zero => rfl
  | succ n ih => simp [counterAfter, dailyLimitCheck, ih]

/-! ## Query sanitization (`app/models/requests.py`) and cache keys
(`app/utils/cache.py`)

Strings are handled through their character lists.  `Char.toLower` models
Python `str.lower()` on the ASCII range (the only range the adversarial
patterns and the worked examples exercise). -/

/-- Python `str.strip()` whitespace set (ASCII): space, `\t`, `\n`, `\r`,
`\x0b`, `\x0c`.  The same set models the `\s` class of `re`. -/
def isPySpace (c : Char) : Bool :=
  c = ' ' || c = '\t' || c = '\n' || c = '\r' ||
  c = Char.ofNat 0x0b || c = Char.ofNat 0x0c

/-- The control characters removed by `sanitize_query` step 2:
`[\x00-\x08\x0b\x0c\x0e-\x1f\x7f]` (note `\t`, `\n`, `\r` are kept and
later collapsed as whitespace). -/
def isStrippedCtl (c : Char) : Bool :=
  c.toNat ≤ 0x08 || c.toNat = 0x0b || c.toNat = 0x0c ||
  (0x0e ≤ c.toNat && c.toNat ≤ 0x1f) || c.toNat = 0x7f

/-- Python `str.strip()`: drop leading and trailing whitespace. -/
def pyStrip (l : List Char) : List Char :=
  ((l.dropWhile isPySpace).reverse.dropWhile isPySpace).reverse

/-- One pass of `re.sub(r"\s+", " ", s)`: every maximal run of whitespace
becomes a single space.  The boolean flag records whether the previous
character was part of a whitespace run. -/
def collapseWSAux : Bool → List Char → List Char
  | _, [] => []
  | inRun, c :: cs =>
    if isPySpace c then
      if inRun then collapseWSAux true cs
      else ' ' :: collapseWSAux true cs
    else c :: collapseWSAux false cs

/-- `re.sub(r"\s+", " ", s)`. -/
def collapseWS (l : List Char) : List Char :=
  collapseWSAux false l

/-- Character-wise lower-casing (`str.lower()`, ASCII range). -/
def lowerList (l : List Char) : List Char :=
  l.map Char.toLower

/-- `ChatRequest.sanitize_query`: strip, remove control characters,
collapse whitespace runs, then reject results shorter than 2 characters
(the Python guard `if not v or len(v) < 2` is equivalent to `len(v) < 2`). -/
def sanitize_query (v : String) : Except String String :=
  let l := pyStrip v.data
  let l := l.filter (fun c => !isStrippedCtl c)
  let l := collapseWS l
  if l.length < 2 then .error "Query is too short after sanitization."
  else .ok ⟨l⟩

/-- `ResponseCache._make_key`, parameterized by the digest function used
for `hashlib.sha256(...).hexdigest()` (the cryptographic digest is an
external primitive; every property proved here holds for an arbitrary
digest): `"chat:cache:" + H(query.lower().strip())`. -/
def make_key (digest : String → String) (query : String) : String :=
  "chat:cache:" ++ digest ⟨pyStrip (lowerList query.data)⟩

/-- The cache key the pipeline derives for a raw inbound query: the
request model sanitizes the query before `ResponseCache._make_key` sees
it; `none` when schema validation rejects the query. -/
def pipelineCacheKey (digest : String → String) (raw : String) : Option String :=
  match sanitize_query raw with
  | .error _ => none
  | .ok q => some (make_key digest q)

/-- The spec's normalization of a query: trimmed, control characters
stripped, internal whitespace collapsed, lower-cased.  Written from the
spec's words to compare against the code's sanitize-then-key pipeline. -/
def normalizeQuery (q : String) : String :=
  ⟨lowerList (collapseWS ((pyStrip q.data).filter (fun c => !isStrippedCtl c)))⟩

theorem lowerList_length (l : List Char) : (lowerList l).length = l.length :=
  List.length_map l Char.toLower

/-! ## Prompt-injection detection (`app/utils/text_sanitizer.py`)

The `re` patterns of `INJECTION_PATTERNS` are embedded as regular
expressions over characters and matched with Brzozowski derivatives.
`re.IGNORECASE` is modelled by lower-casing the scanned text; the
patterns below are written with lower-case literals accordingly
(all pattern literals are ASCII). -/

/-- Regular expressions: empty language, empty string, single character,
character class (any listed character), alternation, concatenation,
Kleene star. -/
inductive Re where
  | zero
  | eps
  | ch (c : Char)
  | cls (cs : List Char)
  | alt (a b : Re)
  | cat (a b : Re)
  | star (a : Re)
  deriving Repr

/-- Does the regular expression accept the empty string? -/
def Re.nullable : Re → Bool
  | .zero => false
  | .eps => true
  | .ch _ => false
  | .cls _ => false
  | .alt a b => a.nullable || b.nullable
  | .cat a b => a.nullable && b.nullable
  | .star _ => true

/-- Brzozowski derivative with respect to one character. -/
def Re.deriv : Re → Char → Re
  | .zero, _ => .zero
  | .eps, _ => .zero
  | .ch c, x => if c = x then .eps else .zero
  | .cls cs, x => if cs.contains x then .eps else .zero
  | .alt a b, x => .alt (a.deriv x) (b.deriv x)
  | .cat a b, x =>
    if a.nullable then .alt (.cat (a.deriv x) b) (b.deriv x)
    else .cat (a.deriv x) b
  | .star a, x => .cat (a.deriv x) (.star a)

/-- Does some prefix of `l` match `r`? -/
def Re.matchesSomeStart : Re → List Char → Bool
  | r, [] => r.nullable
  | r, c :: cs => r.nullable || (r.deriv c).matchesSomeStart cs

/-- `re.Pattern.search` semantics: does some substring of `l` match `r`? -/
def Re.searchIn : Re → List Char → Bool
  | r, [] => r.nullable
  | r, c :: cs => r.matchesSomeStart (c :: cs) || r.searchIn cs

/-- Concatenation of a list of regular expressions. -/
def Re.cats (rs : List Re) : Re :=
  rs.foldr .cat .eps

/-- Literal string pattern. -/
def Re.str (s : String) : Re :=
  .cats (s.data.map .ch)

/-- Alternation over a non-empty list (empty list gives `zero`). -/
def Re.alts (rs : List Re) : Re :=
  rs.foldr .alt .zero

/-- `r?`. -/
def Re.opt (r : Re) : Re := .alt .eps r

/-- `\s` as a character class. -/
def Re.ws : Re :=
  .cls [' ', '\t', '\n', '\r', Char.ofNat 0x0b, Char.ofNat 0x0c]

/-- `\s+`. -/
def Re.wsPlus : Re := .cat .ws (.star .ws)

/-- `\s*`. -/
def Re.wsStar : Re := .star .ws

/-- `INJECTION_PATTERNS`, lower-cased (matching is performed on the
lower-cased text to model `re.IGNORECASE`). -/
def INJECTION_PATTERNS : List Re :=
  [ -- ignore\s+(all\s+)?(previous|above|prior)\s+(instructions?|prompts?)
    Re.cats [Re.str "ignore", Re.wsPlus,
             Re.opt (Re.cat (Re.str "all") Re.wsPlus),
             Re.alts [Re.str "previous", Re.str "above", Re.str "prior"],
             Re.wsPlus,
             Re.alts [Re.cat (Re.str "instruction") (Re.opt (Re.ch 's')),
                      Re.cat (Re.str "prompt") (Re.opt (Re.ch 's'))]],
    -- disregard\s+(all\s+)?(previous|above|prior)
    Re.cats [Re.str "disregard", Re.wsPlus,
             Re.opt (Re.cat (Re.str "all") Re.wsPlus),
             Re.alts [Re.str "previous", Re.str "above", Re.str "prior"]],
    -- you\s+are\s+now\s+(?:a|an)\s+
    Re.cats [Re.str "you", Re.wsPlus, Re.str "are", Re.wsPlus,
             Re.str "now", Re.wsPlus,
             Re.alts [Re.str "a", Re.str "an"], Re.wsPlus],
    -- system\s*:\s*
    Re.cats [Re.str "system", Re.wsStar, Re.ch ':', Re.wsStar],
    -- <\|system\|>
    Re.str "<|system|>",
    -- act\s+as\s+(?:a|an)\s+
    Re.cats [Re.str "act", Re.wsPlus, Re.str "as", Re.wsPlus,
             Re.alts [Re.str "a", Re.str "an"], Re.wsPlus],
    -- forget\s+(everything|all|your|previous)
    Re.cats [Re.str "forget", Re.wsPlus,
             Re.alts [Re.str "everything", Re.str "all",
                      Re.str "your", Re.str "previous"]],
    -- new\s+instructions?\s*:
    Re.cats [Re.str "new", Re.wsPlus, Re.str "instruction",
             Re.opt (Re.ch 's'), Re.wsStar, Re.ch ':'],
    -- override\s+(your|system|all)\s+
    Re.cats [Re.str "override", Re.wsPlus,
             Re.alts [Re.str "your", Re.str "system", Re.str "all"],
             Re.wsPlus],
    -- pretend\s+(you|that|to)\s+
    Re.cats [Re.str "pretend", Re.wsPlus,
             Re.alts [Re.str "you", Re.str "that", Re.str "to"],
             Re.wsPlus],
    -- jailbreak
    Re.str "jailbreak",
    -- DAN\s+mode
    Re.cats [Re.str "dan", Re.wsPlus, Re.str "mode"]]

/-- `detect_prompt_injection`: true iff any configured pattern matches
somewhere in the (case-folded) text. -/
def detect_prompt_injection (text : String) : Bool :=
  INJECTION_PATTERNS.any (fun p => p.searchIn (lowerList text.data))

/-! ## LLM service (`app/services/llm_service.py`)

The OpenAI provider is mocked: the bulk call's outcome is an
`Except String String` (error or `response.choices[0].message.content`);
the streaming call's raw chunk deltas are a `List (Option String)`
(`chunk.choices[0].delta.content` may be `None`). -/

/-- Python `"".join(strings)` (plain concatenation). -/
def joinStrs : List String → String
  | [] => ""
  | s :: rest => s ++ joinStrs rest

/-- `LLMService.generate_response` under a mocked provider outcome: on
success return the message content, on any exception raise `LLMError`
wrapping the cause. -/
def generate_response (bulkOutcome : Except String String) : Except String String :=
  match bulkOutcome with
  | .ok content => .ok content
  | .error e => .error ("OpenAI API call failed: " ++ e)

/-- `LLMService.generate_stream` under mocked chunk deltas: yield each
delta whose content is truthy (skip `None` and `""`). -/
def generate_stream : List (Option String) → List String
  | [] => []
  | some s :: rest => if s = "" then generate_stream rest else s :: generate_stream rest
  | none :: rest => generate_stream rest

/-- The complete text a mocked stream denotes: concatenation of all
deltas, `None` counting as empty. -/
def bulkOfDeltas (deltas : List (Option String)) : String :=
  joinStrs (deltas.map (fun d => d.getD ""))

/-! ## Response cache (`app/utils/cache.py`)

The Redis store is modelled from the viewpoint of one request's query
key: `stored` is the value under that key, `available` is the
constructor-time connection flag, and `readFails` / `writeFails` inject
an exception into the corresponding `try` block. -/

/-- A cached `{response, sources}` JSON object. -/
structure CacheData where
  response : String
  sources : List String
  deriving DecidableEq, Repr

/-- The cache store as seen through one request's cache key. -/
structure CacheBackend where
  available : Bool
  readFails : Bool
  writeFails : Bool
  stored : Option CacheData
  deriving DecidableEq, Repr

/-- `ResponseCache.get`: `None` when unavailable, `None` on any
underlying error, otherwise the stored value (or `None` on miss). -/
def ResponseCache.get (b : CacheBackend) : Option CacheData :=
  if !b.available then none
  else if b.readFails then none
  else b.stored

/-- `ResponseCache.set`: no-op when unavailable, no-op on any underlying
error, otherwise replace the stored value wholesale. -/
def ResponseCache.set (b : CacheBackend) (d : CacheData) : CacheBackend :=
  if !b.available then b
  else if b.writeFails then b
  else { b with stored := some d }

/-! ## Chat service (`app/services/chat_service.py`) -/

/-- Externally visible effects of one orchestrated request. -/
inductive ChatEff where
  | cacheRead
  | searchCall
  | llmCall
  | llmStreamCall
  | cacheWrite (d : CacheData)
  deriving DecidableEq, Repr

/-- The `{response, sources, cached}` payload. -/
structure ChatResult where
  response : String
  sources : List String
  cached : Bool
  deriving DecidableEq, Repr

/-- One Pinecone match after `_search_sync` formatting.  The relevance
score is kept abstract as a `Nat` rank; no specified property inspects
its value (float arithmetic is out of scope). -/
structure SearchResult where
  text : String
  brand : String
  doc_type : String
  url : String
  score : Nat
  deriving DecidableEq, Repr

/-- `sep.join(parts)`. -/
def sepJoin (sep : String) : List String → String
  | [] => ""
  | [a] => a
  | a :: rest => a ++ sep ++ sepJoin sep rest

/-- `ChatService._format_context`: fallback text on no results, else the
ranked, separator-joined rendering of each result (the `%.2f` float
rendering of the score is abstracted by `toString`). -/
def format_context (results : List SearchResult) : String :=
  if results = [] then "Veritabanında ilgili bilgi bulunamadı."
  else
    sepJoin "\n\n---\n\n"
      (results.enum.map (fun p =>
        "[Kaynak " ++ toString (p.1 + 1) ++ "] (Skor: " ++ toString p.2.score ++
        ")\nMarka: " ++ p.2.brand ++ "\nİçerik: " ++ p.2.text ++
        (if p.2.url ≠ "" then "\nURL: " ++ p.2.url else "")))

/-- `ChatService._extract_sources`: unique non-empty URLs in first-seen
order. -/
def extract_sources (results : List SearchResult) : List String :=
  results.foldl
    (fun urls r =>
      if r.url ≠ "" && !(urls.contains r.url) then urls ++ [r.url] else urls)
    []

/-- Result of one bulk-mode orchestrated request. -/
structure BulkRun where
  result : Except String ChatResult
  backend : CacheBackend
  effects : List ChatEff
  deriving Repr

/-- `ChatService.get_response`: cache lookup; on a hit return the cached
payload with `cached=True`; on a miss search, generate, write the cache,
and return with `cached=False`.  A search or generation exception
propagates and aborts the request at that point (no later step runs). -/
def ChatService.get_response (b : CacheBackend)
    (searchOutcome : Except String (List SearchResult))
    (llmOutcome : String → Except String String) : BulkRun :=
  match ResponseCache.get b with
  | some c => ⟨.ok ⟨c.response, c.sources, true⟩, b, [.cacheRead]⟩
  | none =>
    match searchOutcome with
    | .error e => ⟨.error e, b, [.cacheRead, .searchCall]⟩
    | .ok results =>
      let context := format_context results
      let sources := extract_sources results
      match llmOutcome context with
      | .error e => ⟨.error e, b, [.cacheRead, .searchCall, .llmCall]⟩
      | .ok response =>
        let d : CacheData := ⟨response, sources⟩
        ⟨.ok ⟨response, sources, false⟩, ResponseCache.set b d,
         [.cacheRead, .searchCall, .llmCall, .cacheWrite d]⟩

/-- Python `s.split(" ")` (explicit single-space separator): splitting on
every space, keeping empty pieces, `[""]` for the empty string. -/
def pySplitSpace : List Char → List (List Char)
  | [] => [[]]
  | c :: cs =>
    if c = ' ' then [] :: pySplitSpace cs
    else
      match pySplitSpace cs with
      | [] => [[c]]
      | w :: ws => (c :: w) :: ws

/-- The simulated stream emitted on a streaming-mode cache hit:
`for word in cached["response"].split(" "): yield word + " "`. -/
def simulatedStreamWords (s : String) : List String :=
  (pySplitSpace s.data).map (fun w => ⟨w ++ [' ']⟩)

/-- Result of one streaming-mode orchestrated request: the fragments the
generator yielded before returning or raising, the generator's outcome,
and the final cache state. -/
structure StreamRun where
  emitted : List String
  outcome : Except String Unit
  backend : CacheBackend
  effects : List ChatEff
  deriving Repr

/-- `ChatService.get_stream_response`.  The mocked streaming generation
is, per context, a pair of the fragments produced and an optional
exception raised after them; `none` is a clean end of stream, `some e`
covers a mid-stream provider failure or the stream being torn down
partway (either way the Python generator never reaches the cache-write
statement after the `async for`). -/
def ChatService.get_stream_response (b : CacheBackend)
    (searchOutcome : Except String (List SearchResult))
    (streamOutcome : String → List String × Option String) : StreamRun :=
  match ResponseCache.get b with
  | some c => ⟨simulatedStreamWords c.response, .ok (), b, [.cacheRead]⟩
  | none =>
    match searchOutcome with
    | .error e => ⟨[], .error e, b, [.cacheRead, .searchCall]⟩
    | .ok results =>
      let context := format_context results
      let sources := extract_sources results
      let produced := streamOutcome context
      match produced.2 with
      | some e => ⟨produced.1, .error e, b, [.cacheRead, .searchCall, .llmStreamCall]⟩
      | none =>
        let complete := joinStrs produced.1
        let d : CacheData := ⟨complete, sources⟩
        ⟨produced.1, .ok (), ResponseCache.set b d,
         [.cacheRead, .searchCall, .llmStreamCall, .cacheWrite d]⟩

/-- Number of cache writes recorded in an effect list. -/
def cacheWriteCount (effs : List ChatEff) : Nat :=
  effs.countP (fun e =>
    match e with
    | .cacheWrite _ => true
    | _ => false)

/-! ## Search service (`app/services/search_service.py`)

`SearchService.search` detects a brand once, then runs
`for attempt in range(1, max_retries + 1)` around `_search_sync`
(embedding + index query + result formatting).  Each attempt's outcome
comes from an oracle indexed by attempt number; after a failed
non-final attempt the loop sleeps `2 ** (attempt - 1)` seconds. -/

/-- Externally visible effects of one `search` call. -/
inductive SearchEff where
  | brandDetection
  | attemptCall (n : Nat)
  | backoffSleep (seconds : Nat)
  deriving DecidableEq, Repr

/-- The `SearchError` raised after the loop: wraps the attempt budget and
the last underlying error (`None` only in the degenerate
`max_retries = 0` case). -/
structure SearchFailure where
  attemptsMade : Nat
  lastError : Option String
  deriving DecidableEq, Repr

/-- The retry loop of `SearchService.search`.  `fuel` is the number of
loop iterations still available (initially `maxRetries`), `attempt` the
1-based attempt number, and the `Option String` the `last_error`
accumulator. -/
def searchAttemptLoop (oracle : Nat → Except String (List SearchResult))
    (maxRetries : Nat) :
    Nat → Nat → Option String →
    Except SearchFailure (List SearchResult) × List SearchEff
  | 0, _, last => (.error ⟨maxRetries, last⟩, [])
  | fuel + 1, attempt, _ =>
    match oracle attempt with
    | .ok v => (.ok v, [.attemptCall attempt])
    | .error e =>
      if attempt < maxRetries then
        let r := searchAttemptLoop oracle maxRetries fuel (attempt + 1) (some e)
        (r.1, .attemptCall attempt :: .backoffSleep (2 ^ (attempt - 1)) :: r.2)
      else
        (.error ⟨maxRetries, some e⟩, [.attemptCall attempt])

/-- `SearchService.search query top_k max_retries`: detect the brand
(once, outside the retry loop), then run the attempt loop. -/
def SearchService.search (oracle : Nat → Except String (List SearchResult))
    (maxRetries : Nat) :
    Except SearchFailure (List SearchResult) × List SearchEff :=
  let r := searchAttemptLoop oracle maxRetries maxRetries 1 none
  (r.1, .brandDetection :: r.2)

/-- Attempts recorded in a search effect list. -/
def attemptCount (effs : List SearchEff) : Nat :=
  effs.countP (fun e =>
    match e with
    | .attemptCall _ => true
    | _ => false)

/-- Brand detections recorded in a search effect list. -/
def brandDetectionCount (effs : List SearchEff) : Nat :=
  effs.countP (fun e =>
    match e with
    | .brandDetection => true
    | _ => false)

/-- The back-off sleeps of a search effect list, in order. -/
def sleepsOf (effs : List SearchEff) : List Nat :=
  effs.filterMap (fun e =>
    match e with
    | .backoffSleep s => some s
    | _ => none)

/-! ## Chat endpoint (`app/api/v1/chat.py`, `POST /api/v1/chat`)

The route body after API-key verification and the per-minute rate
limiter: IP daily budget check, global daily budget check, size
validation, injection short-circuit, then the orchestrated pipeline. -/

/-- The fixed refusal text returned on injection detection. -/
def REFUSAL_TEXT : String :=
  "Bu sorguyu işleyemiyorum. Lütfen farklı bir soru sorun."

/-- Mutable state the endpoint touches: the two daily counters and the
cache store. -/
structure EndpointState where
  ipCounter : Nat
  globalCounter : Nat
  backend : CacheBackend
  deriving Repr

/-- Error responses of the endpoint (HTTP 429 / 400 / 500 kinds). -/
inductive HttpReject where
  | quotaExceeded (q : QuotaExceeded)
  | queryTooLarge (e : QueryTooLarge)
  | upstreamFailure (msg : String)
  deriving DecidableEq, Repr

/-- Result of one endpoint invocation. -/
structure EndpointRun where
  result : Except HttpReject ChatResult
  state : EndpointState
  effects : List ChatEff
  deriving Repr

/-- The `chat` route handler: budget checks, `validate_query_size`,
`detect_prompt_injection` short-circuit, then
`ChatService.get_response`. -/
def chatEndpoint (query : String) (st : EndpointState)
    (searchOutcome : Except String (List SearchResult))
    (llmOutcome : String → Except String String) : EndpointRun :=
  let ipStep := check_ip_daily_limit st.ipCounter
  match ipStep.1 with
  | .error q => ⟨.error (.quotaExceeded q), ⟨ipStep.2, st.globalCounter, st.backend⟩, []⟩
  | .ok () =>
    let gStep := check_global_daily_limit st.globalCounter
    match gStep.1 with
    | .error q => ⟨.error (.quotaExceeded q), ⟨ipStep.2, gStep.2, st.backend⟩, []⟩
    | .ok () =>
      match validate_query_size query with
      | .error e => ⟨.error (.queryTooLarge e), ⟨ipStep.2, gStep.2, st.backend⟩, []⟩
      | .ok () =>
        if detect_prompt_injection query then
          ⟨.ok ⟨REFUSAL_TEXT, [], false⟩, ⟨ipStep.2, gStep.2, st.backend⟩, []⟩
        else
          let run := ChatService.get_response st.backend searchOutcome llmOutcome
          match run.result with
          | .error e =>
            ⟨.error (.upstreamFailure e), ⟨ipStep.2, gStep.2, run.backend⟩, run.effects⟩
          | .ok r => ⟨.ok r, ⟨ipStep.2, gStep.2, run.backend⟩, run.effects⟩

/-! # Theorems -/

/-- C4: `validate_query_size(query)` fails with `QueryTooLarge` exactly
when the character length exceeds 1000 or the estimated token count
(`⌈length/3⌉` heuristic) exceeds 350; a query of exactly the maximum
allowed length (1000 characters) passes, and one character beyond it
fails. -/
theorem c4_validate_query_size_boundary (q : String) :
    ((validate_query_size q ≠ .ok ()) ↔
      (MAX_QUERY_CHARS < q.length ∨ MAX_QUERY_TOKENS_EST < (q.length + 2) / 3)) ∧
    (q.length = 1000 → validate_query_size q = .ok ()) ∧
    (q.length = 1001 → validate_query_size q = .error .tooManyChars) := by
  unfold validate_query_size estimate_token_count MAX_QUERY_CHARS MAX_QUERY_TOKENS_EST
  refine ⟨?_, ?_, ?_⟩ <;> split_ifs with h1 h2 <;> simp_all <;> omega

/-- Witness for C4 at the boundary lengths 1000 and 1001. -/
theorem c4_witness :
    validate_query_size ⟨List.replicate 1000 'a'⟩ = .ok () ∧
    validate_query_size ⟨List.replicate 1001 'a'⟩ = .error .tooManyChars := by
  constructor
  · exact (c4_validate_query_size_boundary ⟨List.replicate 1000 'a'⟩).2.1
      (by simp only [String.length, List.length_replicate])
  · exact (c4_validate_query_size_boundary ⟨List.replicate 1001 'a'⟩).2.2
      (by simp only [String.length, List.length_replicate])

/-- C10: for every schema-validated query (length between 2 and 1000
after sanitization) the token-estimate branch of `validate_query_size`
is unreachable — the estimate is at most 334 ≤ 350 — so
`validate_query_size` accepts every such query. -/
theorem c10_token_branch_unreachable (q : String)
    (hlo : 2 ≤ q.length) (hhi : q.length ≤ 1000) :
    estimate_token_count q ≤ 334 ∧ validate_query_size q = .ok () := by
  unfold validate_query_size estimate_token_count MAX_QUERY_CHARS MAX_QUERY_TOKENS_EST
  constructor
  · omega
  · split_ifs with h1 h2 <;> first | rfl | omega

/-- Witness for C10 at a concrete 2-character query. -/
theorem c10_witness :
    estimate_token_count "ab" ≤ 334 ∧ validate_query_size "ab" = .ok () :=
  c10_token_branch_unreachable "ab" (by decide) (by decide)

/-- C3: against a fresh daily counter, the `k`-th admission check from
one origin within one UTC day (default limit 200) succeeds iff
`k ≤ 200`, and fails with `QuotaExceeded` carrying a retry-after of
86400 seconds when `k > 200`; in particular check 200 succeeds and
check 201 is rejected. -/
theorem c3_daily_quota_boundary (k : Nat) (hk : 1 ≤ k) :
    (kthCheckResult 200 k = .ok () ↔ k ≤ 200) ∧
    (200 < k → kthCheckResult 200 k = .error ⟨86400⟩) ∧
    kthCheckResult 200 200 = .ok () ∧
    kthCheckResult 200 201 = .error ⟨86400⟩ := by
  have hrw : ∀ m, kthCheckResult 200 m =
      if m - 1 + 1 > 200 then .error ⟨86400⟩ else .ok () := by
    intro m
    unfold kthCheckResult dailyLimitCheck
    rw [counterAfter_eq]
  rw [hrw k, hrw 200, hrw 201]
  have hk1 : k - 1 + 1 = k := by omega
  rw [hk1]
  refine ⟨?_, ?_, ?_, ?_⟩
  · split_ifs with h <;> simp <;> omega
  · intro h
    rw [if_pos (by omega)]
  · rfl
  · rfl

/-- Witness for C3 at the 201st and 200th checks. -/
theorem c3_witness :
    kthCheckResult 200 201 = .error ⟨86400⟩ ∧ kthCheckResult 200 200 = .ok () := by
  have h := c3_daily_quota_boundary 201 (by decide)
  exact ⟨h.2.1 (by decide), h.2.2.1⟩

theorem str_nil_append (s : String) : "" ++ s = s := rfl

/-- C5: two query strings that normalize identically (trimmed, control
characters stripped, internal whitespace collapsed, lower-cased) derive
the same cache key through the pipeline (request sanitization followed
by `ResponseCache._make_key`), for any digest function. -/
theorem c5_cache_key_determinism (digest : String → String) (a b : String)
    (h : normalizeQuery a = normalizeQuery b) :
    pipelineCacheKey digest a = pipelineCacheKey digest b := by
  have hdat : lowerList (collapseWS ((pyStrip a.data).filter (fun c => !isStrippedCtl c))) =
      lowerList (collapseWS ((pyStrip b.data).filter (fun c => !isStrippedCtl c))) := by
    have h' := congrArg String.data h
    simpa [normalizeQuery] using h'
  have hlen : (collapseWS ((pyStrip a.data).filter (fun c => !isStrippedCtl c))).length =
      (collapseWS ((pyStrip b.data).filter (fun c => !isStrippedCtl c))).length := by
    have h'' := congrArg List.length hdat
    simpa [lowerList_length] using h''
  unfold pipelineCacheKey sanitize_query make_key
  simp only
  by_cases hlt :
      (collapseWS ((pyStrip a.data).filter (fun c => !isStrippedCtl c))).length < 2
  · rw [if_pos hlt, if_pos (by rw [← hlen]; exact hlt)]
  · rw [if_neg hlt, if_neg (by rw [← hlen]; exact hlt)]
    have hkey :
        (⟨pyStrip (lowerList (collapseWS ((pyStrip a.data).filter (fun c => !isStrippedCtl c))))⟩ : String) =
        ⟨pyStrip (lowerList (collapseWS ((pyStrip b.data).filter (fun c => !isStrippedCtl c))))⟩ := by
      rw [hdat]
    dsimp only
    rw [hkey]

/-- Witness for C5 at the spec's example pair. -/
theorem c5_witness :
    pipelineCacheKey (fun s => s) "  Pepsi  ürünleri " =
      pipelineCacheKey (fun s => s) "pepsi ürünleri" :=
  c5_cache_key_determinism (fun s => s) "  Pepsi  ürünleri " "pepsi ürünleri"
    (by decide)

theorem joinStrs_generate_stream (ds : List (Option String)) :
    joinStrs (generate_stream ds) = bulkOfDeltas ds := by
  induction ds with
  | nil => rfl
  | cons d rest ih =>
    cases d with
    | none =>
      show joinStrs (generate_stream rest) = joinStrs ("" :: rest.map (fun d => d.getD ""))
      rw [joinStrs, str_nil_append]
      exact ih
    | some s =>
      by_cases hs : s = ""
      · subst hs
        show joinStrs (generate_stream (some "" :: rest)) =
          joinStrs ("" :: rest.map (fun d => d.getD ""))
        rw [joinStrs, str_nil_append, generate_stream, if_pos rfl]
        exact ih
      · show joinStrs (generate_stream (some s :: rest)) =
          joinStrs (s :: rest.map (fun d => d.getD ""))
        rw [generate_stream, if_neg hs, joinStrs, joinStrs, ih]
        rfl

/-- C7: for a fixed query, context, and mocked model output, the
concatenation of all fragments yielded by `generate_stream` equals the
string returned by `generate_response` on the same inputs (the mock
contract: the bulk content is the concatenation of the stream deltas,
`None` deltas counting as empty). -/
theorem c7_stream_bulk_equivalence (deltas : List (Option String)) (bulk : String)
    (hmock : bulkOfDeltas deltas = bulk) :
    generate_response (.ok bulk) = .ok (joinStrs (generate_stream deltas)) := by
  show Except.ok bulk = _
  rw [← hmock, joinStrs_generate_stream]

/-- Witness for C7 at a concrete mocked stream. -/
theorem c7_witness :
    generate_response (.ok "Merhaba dünya") =
      .ok (joinStrs (generate_stream [some "Merhaba ", none, some "", some "dünya"])) :=
  c7_stream_bulk_equivalence [some "Merhaba ", none, some "", some "dünya"]
    "Merhaba dünya" (by decide)

theorem pySplitSpace_ne_nil (l : List Char) : pySplitSpace l ≠ [] := by
  cases l with
  | nil => simp [pySplitSpace]
  | cons c cs =>
    simp only [pySplitSpace]
    split_ifs
    · simp
    · cases h : pySplitSpace cs <;> simp [h]

theorem pySplit_join (l : List Char) :
    ((pySplitSpace l).map (fun w => w ++ [' '])).foldr (· ++ ·) [] = l ++ [' '] := by
  induction l with
  | nil => rfl
  | cons c cs ih =>
    by_cases hc : c = ' '
    · subst hc
      rw [show pySplitSpace (' ' :: cs) = [] :: pySplitSpace cs from by
        simp [pySplitSpace]]
      simp only [List.map_cons, List.foldr_cons, List.nil_append, List.cons_append]
      rw [ih]
    · cases hsp : pySplitSpace cs with
      | nil => exact absurd hsp (pySplitSpace_ne_nil cs)
      | cons w ws =>
        have ih' := ih
        rw [hsp] at ih'
        simp only [List.map_cons, List.foldr_cons] at ih'
        simp only [pySplitSpace, if_neg hc, hsp, List.map_cons, List.foldr_cons,
          List.cons_append, List.append_assoc] at *
        rw [ih']

theorem joinStrs_simulated (s : String) :
    joinStrs (simulatedStreamWords s) = s ++ " " := by
  unfold simulatedStreamWords
  have hmk : ∀ ls : List (List Char),
      joinStrs (ls.map (fun w => (⟨w⟩ : String))) = ⟨ls.foldr (· ++ ·) []⟩ := by
    intro ls
    induction ls with
    | nil => rfl
    | cons w ws ih =>
      rw [List.map_cons, joinStrs, ih]
      rfl
  have hsplit : (pySplitSpace s.data).map (fun w => (⟨w ++ [' ']⟩ : String)) =
      ((pySplitSpace s.data).map (fun w => w ++ [' '])).map (fun w => (⟨w⟩ : String)) := by
    rw [List.map_map]
    rfl
  rw [hsplit, hmk, pySplit_join]
  rfl

/-- C8 (amended): on a cache HIT in streaming mode,
`get_stream_response` re-emits the cached complete answer as word-sized
fragments (each split word with a space appended), and the concatenation
of the emitted fragments equals the cached complete answer text followed
by one extra trailing space. -/
theorem c8_stream_hit_simulated (b : CacheBackend) (c : CacheData)
    (sO : Except String (List SearchResult))
    (stO : String → List String × Option String)
    (h : ResponseCache.get b = some c) :
    (ChatService.get_stream_response b sO stO).emitted = simulatedStreamWords c.response ∧
    joinStrs (ChatService.get_stream_response b sO stO).emitted = c.response ++ " " := by
  unfold ChatService.get_stream_response
  rw [h]
  exact ⟨rfl, joinStrs_simulated c.response⟩

/-- Counterexample to C8 as stated: with `"ab cd"` cached, the
concatenation of the fragments emitted on a streaming-mode hit is
`"ab cd "`, which differs from the cached complete answer `"ab cd"`. -/
theorem c8_counterexample :
    (ChatService.get_stream_response ⟨true, false, false, some ⟨"ab cd", []⟩⟩
        (.error "unused") (fun _ => ([], none))).emitted = ["ab ", "cd "] ∧
    joinStrs
      (ChatService.get_stream_response ⟨true, false, false, some ⟨"ab cd", []⟩⟩
        (.error "unused") (fun _ => ([], none))).emitted = "ab cd " ∧
    "ab cd " ≠ "ab cd" := by
  refine ⟨by decide, by decide, by decide⟩

/-- Witness for C8 (amended) at the same concrete cached answer. -/
theorem c8_witness :
    (ChatService.get_stream_response ⟨true, false, false, some ⟨"merhaba dünya", []⟩⟩
        (.error "unused") (fun _ => ([], none))).emitted =
      simulatedStreamWords "merhaba dünya" ∧
    joinStrs
      (ChatService.get_stream_response ⟨true, false, false, some ⟨"merhaba dünya", []⟩⟩
        (.error "unused") (fun _ => ([], none))).emitted = "merhaba dünya" ++ " " :=
  c8_stream_hit_simulated ⟨true, false, false, some ⟨"merhaba dünya", []⟩⟩
    ⟨"merhaba dünya", []⟩ (.error "unused") (fun _ => ([], none)) (by decide)

theorem get_none_of_readFails (b : CacheBackend) (h : b.readFails = true) :
    ResponseCache.get b = none := by
  unfold ResponseCache.get
  rw [h]
  cases hav : b.available <;> simp

theorem set_id_of_writeFails (b : CacheBackend) (d : CacheData)
    (h : b.writeFails = true) : ResponseCache.set b d = b := by
  unfold ResponseCache.set
  rw [h]
  cases hav : b.available <;> simp

/-- C9: if the cache store errors, the orchestrator proceeds as on a
miss — `ResponseCache.get` returns `none` on any underlying error,
`ResponseCache.set` is a no-op on any underlying error, and a request
whose cache reads and writes both fail still completes successfully
(with `cached=false` and the cache state unchanged). -/
theorem c9_cache_failure_degrades (b : CacheBackend) (d : CacheData)
    (results : List SearchResult) (resp : String)
    (lO : String → Except String String) :
    (b.readFails = true → ResponseCache.get b = none) ∧
    (b.writeFails = true → ResponseCache.set b d = b) ∧
    (b.readFails = true → b.writeFails = true →
      lO (format_context results) = .ok resp →
      (ChatService.get_response b (.ok results) lO).result =
        .ok ⟨resp, extract_sources results, false⟩ ∧
      (ChatService.get_response b (.ok results) lO).backend = b) := by
  refine ⟨get_none_of_readFails b, set_id_of_writeFails b d, ?_⟩
  intro hr hw hl
  unfold ChatService.get_response
  rw [get_none_of_readFails b hr]
  dsimp only
  rw [hl]
  dsimp only
  exact ⟨rfl, set_id_of_writeFails b _ hw⟩

/-- Witness for C9: a fully failing cache store (with a stale stored
value hidden behind the read failure) still serves the request as an
uncached success and leaves the store untouched. -/
theorem c9_witness :
    ResponseCache.get ⟨true, true, true, some ⟨"stale", []⟩⟩ = none ∧
    ResponseCache.set ⟨true, true, true, some ⟨"stale", []⟩⟩ ⟨"x", []⟩ =
      ⟨true, true, true, some ⟨"stale", []⟩⟩ ∧
    (ChatService.get_response ⟨true, true, true, some ⟨"stale", []⟩⟩ (.ok [])
        (fun _ => .ok "taze")).result = .ok ⟨"taze", [], false⟩ ∧
    (ChatService.get_response ⟨true, true, true, some ⟨"stale", []⟩⟩ (.ok [])
        (fun _ => .ok "taze")).backend = ⟨true, true, true, some ⟨"stale", []⟩⟩ := by
  have h := c9_cache_failure_degrades ⟨true, true, true, some ⟨"stale", []⟩⟩ ⟨"x", []⟩
    [] "taze" (fun _ => .ok "taze")
  have h3 := h.2.2 rfl rfl rfl
  exact ⟨h.1 rfl, h.2.1 rfl, h3.1, h3.2⟩

/-- C1: for every request handled by the orchestrator, in both bulk and
streaming mode, the cache is written at most once; any cache write
happens only on the cache-miss path, as the last effect after retrieval
and a fully successful generation (bulk) or a fully completed stream
(streaming); and whenever generation raises or the stream terminates
partway, no cache write occurs. -/
theorem c1_cache_write_at_most_once (b : CacheBackend)
    (sO : Except String (List SearchResult))
    (lO : String → Except String String)
    (stO : String → List String × Option String) :
    cacheWriteCount (ChatService.get_response b sO lO).effects ≤ 1 ∧
    (∀ d, ChatEff.cacheWrite d ∈ (ChatService.get_response b sO lO).effects →
      ResponseCache.get b = none ∧
      (ChatService.get_response b sO lO).effects =
        [.cacheRead, .searchCall, .llmCall, .cacheWrite d] ∧
      ∃ r, (ChatService.get_response b sO lO).result = .ok r ∧ r.cached = false) ∧
    (∀ e, (ChatService.get_response b sO lO).result = .error e →
      cacheWriteCount (ChatService.get_response b sO lO).effects = 0) ∧
    cacheWriteCount (ChatService.get_stream_response b sO stO).effects ≤ 1 ∧
    (∀ d, ChatEff.cacheWrite d ∈ (ChatService.get_stream_response b sO stO).effects →
      ResponseCache.get b = none ∧
      (ChatService.get_stream_response b sO stO).effects =
        [.cacheRead, .searchCall, .llmStreamCall, .cacheWrite d] ∧
      (ChatService.get_stream_response b sO stO).outcome = .ok ()) ∧
    (∀ e, (ChatService.get_stream_response b sO stO).outcome = .error e →
      cacheWriteCount (ChatService.get_stream_response b sO stO).effects = 0) := by
  cases hget : ResponseCache.get b with
  | some c =>
    simp [ChatService.get_response, ChatService.get_stream_response, hget,
      cacheWriteCount]
  | none =>
    cases hs : sO with
    | error e =>
      simp [ChatService.get_response, ChatService.get_stream_response, hget, hs,
        cacheWriteCount]
    | ok results =>
      cases hl : lO (format_context results) with
      | error e =>
        cases hp : (stO (format_context results)).2 with
        | none =>
          simp [ChatService.get_response, ChatService.get_stream_response, hget, hs,
            hl, hp, cacheWriteCount]
        | some e2 =>
          simp [ChatService.get_response, ChatService.get_stream_response, hget, hs,
            hl, hp, cacheWriteCount]
      | ok resp =>
        cases hp : (stO (format_context results)).2 with
        | none =>
          simp [ChatService.get_response, ChatService.get_stream_response, hget, hs,
            hl, hp, cacheWriteCount]
        | some e2 =>
          simp [ChatService.get_response, ChatService.get_stream_response, hget, hs,
            hl, hp, cacheWriteCount]

/-- Witness for C1: a concrete miss with successful bulk generation
writes exactly once as the final effect, and a concrete mid-stream
failure writes nothing. -/
theorem c1_witness :
    ResponseCache.get ⟨true, false, false, none⟩ = none ∧
    (ChatService.get_response ⟨true, false, false, none⟩ (.ok [])
        (fun _ => .ok "cevap")).effects =
      [.cacheRead, .searchCall, .llmCall, .cacheWrite ⟨"cevap", []⟩] ∧
    cacheWriteCount
      (ChatService.get_stream_response ⟨true, false, false, none⟩ (.ok [])
        (fun _ => (["par"], some "boom"))).effects = 0 := by
  have h := c1_cache_write_at_most_once ⟨true, false, false, none⟩ (.ok [])
    (fun _ => .ok "cevap") (fun _ => (["par"], some "boom"))
  exact ⟨(h.2.1 ⟨"cevap", []⟩ (by decide)).1, (h.2.1 ⟨"cevap", []⟩ (by decide)).2.1,
    h.2.2.2.2.2 "boom" rfl⟩

/-- C6: `search(query, topK)` with the default budget of 3 makes at most
3 attempts, detects the brand exactly once (never retried), sleeps the
exponential back-off schedule `2^(attempt-1)` seconds (1s, 2s, …)
between consecutive attempts, raises a `SearchError` wrapping the last
underlying error after exhausting all 3 attempts, and returns an empty
result list from a successful query as a valid empty sequence. -/
theorem c6_search_retry_policy (oracle : Nat → Except String (List SearchResult)) :
    attemptCount (SearchService.search oracle 3).2 ≤ 3 ∧
    brandDetectionCount (SearchService.search oracle 3).2 = 1 ∧
    sleepsOf (SearchService.search oracle 3).2 =
      (List.range (attemptCount (SearchService.search oracle 3).2 - 1)).map
        (fun i => 2 ^ i) ∧
    (∀ e1 e2 e3, oracle 1 = .error e1 → oracle 2 = .error e2 → oracle 3 = .error e3 →
      (SearchService.search oracle 3).1 = .error ⟨3, some e3⟩) ∧
    (oracle 1 = .ok [] → (SearchService.search oracle 3).1 = .ok []) := by
  cases h1 : oracle 1 with
  | ok v1 =>
    simp [SearchService.search, searchAttemptLoop, h1, attemptCount,
      brandDetectionCount, sleepsOf]
  | error e1 =>
    cases h2 : oracle 2 with
    | ok v2 =>
      simp [SearchService.search, searchAttemptLoop, h1, h2, attemptCount,
        brandDetectionCount, sleepsOf, List.range_succ]
    | error e2 =>
      cases h3 : oracle 3 with
      | ok v3 =>
        simp [SearchService.search, searchAttemptLoop, h1, h2, h3, attemptCount,
          brandDetectionCount, sleepsOf, List.range_succ]
      | error e3 =>
        simp [SearchService.search, searchAttemptLoop, h1, h2, h3, attemptCount,
          brandDetectionCount, sleepsOf, List.range_succ]

/-- Witness for C6: all three attempts failing yields the wrapping
error; a first-attempt empty success yields the valid empty list. -/
theorem c6_witness :
    (SearchService.search (fun _ => .error "down") 3).1 = .error ⟨3, some "down"⟩ ∧
    (SearchService.search (fun _ => .ok []) 3).1 = .ok [] := by
  exact ⟨(c6_search_retry_policy (fun _ => .error "down")).2.2.2.1
      "down" "down" "down" rfl rfl rfl,
    (c6_search_retry_policy (fun _ => .ok [])).2.2.2.2 rfl⟩

/-- C2: for every query matching a configured adversarial pattern that
reaches the injection check (budget and size checks pass), the chat
endpoint performs no retrieval, generation or cache effect at all and
returns the fixed refusal message with empty sources and
`cached=false`. -/
theorem c2_injection_short_circuit (q : String) (st : EndpointState)
    (sO : Except String (List SearchResult)) (lO : String → Except String String)
    (hdet : detect_prompt_injection q = true)
    (hip : st.ipCounter < 200) (hg : st.globalCounter < 5000)
    (hlen : q.length ≤ 1000) :
    (chatEndpoint q st sO lO).result = .ok ⟨REFUSAL_TEXT, [], false⟩ ∧
    (chatEndpoint q st sO lO).effects = [] ∧
    ChatEff.searchCall ∉ (chatEndpoint q st sO lO).effects ∧
    ChatEff.llmCall ∉ (chatEndpoint q st sO lO).effects := by
  have hipok : (check_ip_daily_limit st.ipCounter).1 = .ok () := by
    unfold check_ip_daily_limit dailyLimitCheck
    dsimp only
    rw [if_neg (by omega)]
  have hgok : (check_global_daily_limit st.globalCounter).1 = .ok () := by
    unfold check_global_daily_limit dailyLimitCheck
    dsimp only
    rw [if_neg (by omega)]
  have hval : validate_query_size q = .ok () := by
    unfold validate_query_size estimate_token_count MAX_QUERY_CHARS MAX_QUERY_TOKENS_EST
    rw [if_neg (by omega), if_neg (by omega)]
  simp [chatEndpoint, hipok, hgok, hval, hdet]

/-- Witness for C2 at the concrete injected query `"jailbreak"`. -/
theorem c2_witness :
    detect_prompt_injection "jailbreak" = true ∧
    (chatEndpoint "jailbreak" ⟨0, 0, ⟨true, false, false, none⟩⟩ (.error "unused")
        (fun _ => .error "unused")).result = .ok ⟨REFUSAL_TEXT, [], false⟩ ∧
    (chatEndpoint "jailbreak" ⟨0, 0, ⟨true, false, false, none⟩⟩ (.error "unused")
        (fun _ => .error "unused")).effects = [] := by
  have h := c2_injection_short_circuit "jailbreak" ⟨0, 0, ⟨true, false, false, none⟩⟩
    (.error "unused") (fun _ => .error "unused") (by decide) (by decide) (by decide)
    (by decide)
  exact ⟨by decide, h.1, h.2.1⟩

end Chatbot
